import Mathlib

/-!
Shallow embedding of the MISP dashboard's data-shaping core (the Reading
Normalizer, the Range Filter, the error callback and the metric formatter
from `App.jsx`), together with proofs of the spec's testable properties.

Modelling conventions for JavaScript values:
* a JS number is `Option ℚ`, where `none` encodes NaN and `some q` a finite
  number (infinities are not modelled; none of the code paths analysed here
  produce or branch on them);
* a raw record field is `JSVal`: `undef` for a missing field (`undefined`),
  `null`, and `prim c` for any other primitive whose `Number(·)` coercion
  yields `c` (so the string "55" is `prim (some 55)` and "abc" is
  `prim none`);
* a Firebase snapshot entry whose value is itself `null` behaves, through
  the optional chains `item?.field`, exactly like a record all of whose
  fields are `undefined`, so snapshots are lists of `String × RawRecord`;
* `Array.prototype.sort` with the comparator `(a, b) => a.timestamp -
  b.timestamp` is a stable sort ascending by timestamp (ES2019), modelled
  with `List.insertionSort`, which is stable;
* dayjs `subtract(amount, unit)` for the `hour`/`day` units used here is
  plain millisecond arithmetic (hour = 3600000 ms, day = 86400000 ms).
-/

namespace MISP

/-- A JS number: `none` encodes NaN, `some q` a finite value. -/
abbrev JSNum := Option ℚ

/-- A JavaScript primitive value as it can appear in a raw record field.
`prim c` is a defined, non-null primitive whose `Number(·)` coercion is `c`
(`none` when coercion yields NaN, as for the string "abc"). -/
inductive JSVal where
  | undef
  | null
  | prim (c : JSNum)
deriving DecidableEq, Repr

/-- JS `Number(·)` coercion: `Number(undefined)` is NaN, `Number(null)` is 0,
and any other primitive carries its own coercion result. -/
def toNumber : JSVal → JSNum
  | .undef => none
  | .null => some 0
  | .prim c => c

/-- JS nullish coalescing `a ?? b`: `b` when `a` is `null` or `undefined`,
otherwise `a`. -/
def nullishCoalesce (a b : JSVal) : JSVal :=
  match a with
  | .undef => b
  | .null => b
  | v => v

/-- A raw record from the realtime database snapshot: the fields the
normalizer reads, each possibly missing (`undef`). -/
structure RawRecord where
  humid : JSVal
  humidity : JSVal
  temp : JSVal
  temperature : JSVal
  uv : JSVal
  ts : JSVal
  timestamp : JSVal
deriving DecidableEq, Repr

/-- A canonical reading as built by the normalizer: each metric field is
`null` (`none`) or a JS number (possibly NaN, i.e. `some none`); the
timestamp is `null` or a finite number in milliseconds. -/
structure Reading where
  id : String
  humidity : Option JSNum
  temperature : Option JSNum
  uv : Option JSNum
  timestamp : Option ℚ
deriving DecidableEq, Repr

/-- One entry of the `.map` in the `onValue` callback: alias resolution with
`??`, `Number` coercion guarded only by `!== undefined`, and timestamp unit
inference with the `1e12` cutoff. -/
def normalizeEntry (id : String) (item : RawRecord) : Reading :=
  let humidity := nullishCoalesce item.humid item.humidity
  let temperature := nullishCoalesce item.temp item.temperature
  let uv := item.uv
  let ts := nullishCoalesce item.ts item.timestamp
  let timestampRaw := toNumber ts
  let timestamp : Option ℚ :=
    match timestampRaw with
    | none => none
    | some q => some (if q > 1000000000000 then q else q * 1000)
  { id := id
    humidity := if humidity ≠ JSVal.undef then some (toNumber humidity) else none
    temperature := if temperature ≠ JSVal.undef then some (toNumber temperature) else none
    uv := if uv ≠ JSVal.undef then some (toNumber uv) else none
    timestamp := timestamp }

/-- The numeric value a reading's timestamp takes in a JS relational
comparison: `null` coerces to 0. -/
def tsKey (r : Reading) : ℚ := r.timestamp.getD 0

/-- JS truthiness of `item.timestamp` in the `.filter` step: `null` and `0`
are falsy, any other number is truthy (the normalizer never produces a NaN
timestamp, so that case cannot arise there). -/
def tsTruthy (r : Reading) : Bool :=
  match r.timestamp with
  | none => false
  | some q => decide (q ≠ 0)

/-- The sort order used by the comparator `(a, b) => a.timestamp - b.timestamp`. -/
def tsLe (a b : Reading) : Prop := tsKey a ≤ tsKey b

instance : DecidableRel tsLe := fun a b => inferInstanceAs (Decidable (tsKey a ≤ tsKey b))

instance : IsTotal Reading tsLe := ⟨fun a b => le_total (tsKey a) (tsKey b)⟩

instance : IsTrans Reading tsLe := ⟨fun _ _ _ h1 h2 => le_trans h1 h2⟩

/-- The Reading Normalizer: the `parsed` pipeline of the `onValue` callback —
map entries to readings, keep the truthy-timestamp ones, sort ascending by
timestamp (stable sort modelling `Array.prototype.sort`). -/
def parsed (value : List (String × RawRecord)) : List Reading :=
  List.insertionSort tsLe ((value.map fun p => normalizeEntry p.1 p.2).filter tsTruthy)

/-- The `presets` table of the range filter: range key to (amount, unit in
milliseconds). -/
def presetsLookup (k : String) : Option (ℚ × ℚ) :=
  if k = "1h" then some (1, 3600000)
  else if k = "24h" then some (24, 3600000)
  else if k = "7d" then some (7, 86400000)
  else if k = "30d" then some (30, 86400000)
  else none

/-- The Range Filter `filteredReadings`, with the wall clock made an explicit
`now` parameter. A custom range is `none` (the `customRange` state is null)
or a pair of endpoints, each possibly missing (`dayjs.valueOf()` values in
milliseconds). -/
def filteredReadings (readings : List Reading) (rangeKey : String)
    (customRange : Option (Option ℚ × Option ℚ)) (now : ℚ) : List Reading :=
  if readings.length = 0 then []
  else if rangeKey = "all" then readings
  else if rangeKey = "custom" then
    match customRange with
    | none => readings
    | some (none, _) => readings
    | some (_, none) => readings
    | some (some startMs, some endMs) =>
        readings.filter fun r => decide (tsKey r ≥ startMs) && decide (tsKey r ≤ endMs)
  else
    let preset := (presetsLookup rangeKey).getD (24, 3600000)
    let endMs := now
    let startMs := endMs - preset.1 * preset.2
    readings.filter fun r => decide (tsKey r ≥ startMs) && decide (tsKey r ≤ endMs)

/-- The localized generic message set by the subscription error callback. -/
def loadErrorMessage : String := "無法載入資料，請稍後再試。"

/-- The component state touched by the subscription callbacks (union of the
two App variants: the extended one adds `mode`, the commented one adds
`lastUpdated`). -/
structure AppState where
  readings : List Reading
  loading : Bool
  error : Option String
  lastUpdated : Option ℚ
  rangeKey : String
  customRange : Option (Option ℚ × Option ℚ)
  mode : String
deriving DecidableEq

/-- The `onValue` error callback: set the error banner message and clear the
loading flag; nothing else is touched. -/
def onValueError (s : AppState) : AppState :=
  { s with error := some loadErrorMessage, loading := false }

/-- Left-pad a digit string with zeros to length `p`. -/
def padZeros (s : String) (p : Nat) : String :=
  if p ≤ s.length then s else String.mk (List.replicate (p - s.length) '0') ++ s

/-- JS `Number.prototype.toFixed` on an exact rational: round `q·10^p` to the
nearest integer (ties toward the larger integer, as the ECMAScript spec
prescribes) and print with `p` decimal digits. -/
def toFixed (q : ℚ) (p : Nat) : String :=
  let scaled : ℤ := round (q * (10 : ℚ) ^ p)
  let sign := if scaled < 0 then "-" else ""
  let n := scaled.natAbs
  if p = 0 then sign ++ toString n
  else sign ++ toString (n / 10 ^ p) ++ "." ++ padZeros (toString (n % 10 ^ p)) p

/-- `formatMetric`: placeholder for `null`/`undefined` and for values whose
numeric coercion is NaN; otherwise the value to `precision` decimals, with
the unit appended when the unit string is truthy (non-empty). -/
def formatMetric (value : JSVal) (unit : String) (precision : Nat) : String :=
  if value = JSVal.null ∨ value = JSVal.undef then "--"
  else
    match toNumber value with
    | none => "--"
    | some q =>
      let formatted := toFixed q precision
      if unit ≠ "" then formatted ++ " " ++ unit else formatted

/-- A reading's stored metric field (`null` or a JS number) as the value the
summary card passes to `formatMetric`. -/
def fieldToJSVal : Option JSNum → JSVal
  | none => JSVal.null
  | some c => JSVal.prim c

/-- The three readings at 0, 1000 and 2000 ms used by the preset-window
example of the spec's testable properties. -/
def threeReadings : List Reading :=
  [⟨"a", none, none, none, some 0⟩, ⟨"b", none, none, none, some 1000⟩,
   ⟨"c", none, none, none, some 2000⟩]

section

set_option allowUnsafeReducibility true
attribute [local semireducible] Rat.add Rat.sub Rat.mul Rat.div Rat.neg Rat.inv

/-- Every reading surviving the normalizer's filter step has a truthy
timestamp. -/
lemma tsTruthy_of_mem_parsed {value : List (String × RawRecord)} {r : Reading}
    (h : r ∈ parsed value) : tsTruthy r = true := by
  have h1 : r ∈ (value.map fun p => normalizeEntry p.1 p.2).filter tsTruthy :=
    (List.mem_insertionSort tsLe).mp h
  exact (List.mem_filter.mp h1).2

/-- C2: every Reading in the normalizer's output has a present, numeric,
non-zero timestamp, and any entry whose resolved raw timestamp is
non-coercible (NaN, in particular absent) or numerically zero is dropped. -/
theorem C2_timestampInvariant (value : List (String × RawRecord)) (r : Reading)
    (h : r ∈ parsed value) :
    (∃ q : ℚ, r.timestamp = some q ∧ q ≠ 0) ∧
    ∀ (id : String) (item : RawRecord),
      (toNumber (nullishCoalesce item.ts item.timestamp) = none ∨
        toNumber (nullishCoalesce item.ts item.timestamp) = some 0) →
      normalizeEntry id item ∉ parsed value := by
  constructor
  · have ht := tsTruthy_of_mem_parsed h
    unfold tsTruthy at ht
    rcases heq : r.timestamp with _ | q
    · rw [heq] at ht; exact absurd ht (by simp)
    · rw [heq] at ht
      exact ⟨q, rfl, of_decide_eq_true ht⟩
  · intro id item hbad hmem
    have ht := tsTruthy_of_mem_parsed hmem
    rcases hbad with hbad | hbad
    · simp [tsTruthy, normalizeEntry, hbad] at ht
    · simp only [tsTruthy, normalizeEntry, hbad] at ht
      norm_num at ht

/-- C3: the normalizer's output sequence is sorted non-decreasing by
timestamp. -/
theorem C3_sortedByTimestamp (value : List (String × RawRecord)) :
    (parsed value).Pairwise fun a b => tsKey a ≤ tsKey b :=
  List.sorted_insertionSort tsLe _

/-- C2 witness: a concrete snapshot entry with raw timestamp 5 (seconds)
survives as a reading with timestamp 5000 ms, which is present and
non-zero. -/
theorem C2_witness :
    ((⟨"a", none, none, none, some 5000⟩ : Reading) ∈
        parsed [("a",
          (⟨.undef, .undef, .undef, .undef, .undef, .prim (some 5), .undef⟩ : RawRecord))]) ∧
    ∃ q : ℚ, (⟨"a", none, none, none, some 5000⟩ : Reading).timestamp = some q ∧ q ≠ 0 :=
  ⟨by decide,
   (C2_timestampInvariant
      [("a", (⟨.undef, .undef, .undef, .undef, .undef, .prim (some 5), .undef⟩ : RawRecord))]
      ⟨"a", none, none, none, some 5000⟩ (by decide)).1⟩

/-- C4: the unit-inference cutoff is exactly `raw > 1e12 ? raw : raw * 1000`,
and in particular raw 1609459200 canonicalizes to 1609459200000 while raw
1609459200000 is left unchanged. -/
theorem C4_unitInference (id : String) (item : RawRecord) (raw : ℚ)
    (h : toNumber (nullishCoalesce item.ts item.timestamp) = some raw) :
    (normalizeEntry id item).timestamp
      = some (if raw > 1000000000000 then raw else raw * 1000) ∧
    (normalizeEntry "c4"
        ⟨.undef, .undef, .undef, .undef, .undef, .prim (some 1609459200), .undef⟩).timestamp
      = some 1609459200000 ∧
    (normalizeEntry "c4"
        ⟨.undef, .undef, .undef, .undef, .undef, .prim (some 1609459200000), .undef⟩).timestamp
      = some 1609459200000 := by
  refine ⟨?_, by decide, by decide⟩
  simp [normalizeEntry, h]

/-- C4 witness: the general cutoff law applied to the concrete raw
timestamp 1609459200. -/
theorem C4_witness :
    (normalizeEntry "w"
        ⟨.undef, .undef, .undef, .undef, .undef, .prim (some 1609459200), .undef⟩).timestamp
      = some (if (1609459200 : ℚ) > 1000000000000 then 1609459200 else 1609459200 * 1000) :=
  (C4_unitInference "w"
    ⟨.undef, .undef, .undef, .undef, .undef, .prim (some 1609459200), .undef⟩
    1609459200 rfl).1

/-- C5: per-field ordered fallback — a defined non-nullish `humid` wins over
`humidity` regardless of the latter, a nullish `humid` falls back to
`humidity`, and when the fallback is also undefined the field is absent;
likewise for `temp`/`temperature`, for the single-source `uv`, and for the
raw-timestamp resolution from `ts` then `timestamp`. -/
theorem C5_aliasFallback (id : String) (item : RawRecord) :
    (item.humid ≠ JSVal.undef → item.humid ≠ JSVal.null →
      (normalizeEntry id item).humidity = some (toNumber item.humid)) ∧
    ((item.humid = JSVal.undef ∨ item.humid = JSVal.null) → item.humidity ≠ JSVal.undef →
      (normalizeEntry id item).humidity = some (toNumber item.humidity)) ∧
    ((item.humid = JSVal.undef ∨ item.humid = JSVal.null) → item.humidity = JSVal.undef →
      (normalizeEntry id item).humidity = none) ∧
    (item.temp ≠ JSVal.undef → item.temp ≠ JSVal.null →
      (normalizeEntry id item).temperature = some (toNumber item.temp)) ∧
    ((item.temp = JSVal.undef ∨ item.temp = JSVal.null) → item.temperature ≠ JSVal.undef →
      (normalizeEntry id item).temperature = some (toNumber item.temperature)) ∧
    (item.uv ≠ JSVal.undef → (normalizeEntry id item).uv = some (toNumber item.uv)) ∧
    (item.uv = JSVal.undef → (normalizeEntry id item).uv = none) ∧
    (item.ts ≠ JSVal.undef → item.ts ≠ JSVal.null →
      nullishCoalesce item.ts item.timestamp = item.ts) ∧
    ((item.ts = JSVal.undef ∨ item.ts = JSVal.null) →
      nullishCoalesce item.ts item.timestamp = item.timestamp) := by
  refine ⟨?_, ?_, ?_, ?_, ?_, ?_, ?_, ?_, ?_⟩
  · intro h1 h2
    rcases hv : item.humid with _ | _ | c
    · exact absurd hv h1
    · exact absurd hv h2
    · simp [normalizeEntry, nullishCoalesce, hv]
  · intro h1 h2
    rcases h1 with h1 | h1 <;>
      simp [normalizeEntry, nullishCoalesce, h1, h2]
  · intro h1 h2
    rcases h1 with h1 | h1 <;>
      simp [normalizeEntry, nullishCoalesce, h1, h2]
  · intro h1 h2
    rcases hv : item.temp with _ | _ | c
    · exact absurd hv h1
    · exact absurd hv h2
    · simp [normalizeEntry, nullishCoalesce, hv]
  · intro h1 h2
    rcases h1 with h1 | h1 <;>
      simp [normalizeEntry, nullishCoalesce, h1, h2]
  · intro h1
    simp [normalizeEntry, h1]
  · intro h1
    simp [normalizeEntry, h1]
  · intro h1 h2
    rcases hv : item.ts with _ | _ | c
    · exact absurd hv h1
    · exact absurd hv h2
    · simp [nullishCoalesce, hv]
  · intro h1
    rcases h1 with h1 | h1 <;> simp [nullishCoalesce, h1]

/-- C5 witness: a record with only `humid` coercing to 55 yields
humidity 55; a record with neither alias yields an absent humidity. -/
theorem C5_witness :
    (normalizeEntry "w"
        ⟨.prim (some 55), .undef, .undef, .undef, .undef, .undef, .undef⟩).humidity
      = some (some 55) ∧
    (normalizeEntry "w"
        ⟨.undef, .undef, .undef, .undef, .undef, .undef, .undef⟩).humidity = none :=
  ⟨(C5_aliasFallback "w" _).1 (by decide) (by decide),
   (C5_aliasFallback "w" _).2.2.1 (Or.inl rfl) rfl⟩

/-- C9: the subscription error callback sets the localized generic error
message and clears the loading flag, and leaves every other state field
(readings included) unchanged. -/
theorem C9_errorCallback (s : AppState) :
    (onValueError s).error = some loadErrorMessage ∧
    (onValueError s).loading = false ∧
    (onValueError s).readings = s.readings ∧
    (onValueError s).lastUpdated = s.lastUpdated ∧
    (onValueError s).rangeKey = s.rangeKey ∧
    (onValueError s).customRange = s.customRange ∧
    (onValueError s).mode = s.mode :=
  ⟨rfl, rfl, rfl, rfl, rfl, rfl, rfl⟩

/-- C10: `formatMetric` renders the placeholder for `undefined`, `null` and
NaN-coercing values (so a NaN sensor field never renders as "NaN"), and
otherwise formats to one decimal place, appending the unit exactly when the
unit string is non-empty. -/
theorem C10_formatMetricSafety (u : String) (q : ℚ) :
    formatMetric JSVal.undef u 1 = "--" ∧
    formatMetric JSVal.null u 1 = "--" ∧
    formatMetric (JSVal.prim none) u 1 = "--" ∧
    formatMetric (fieldToJSVal (some none)) u 1 = "--" ∧
    formatMetric (JSVal.prim (some q)) u 1
      = (if u ≠ "" then toFixed q 1 ++ " " ++ u else toFixed q 1) ∧
    formatMetric (JSVal.prim (some (47 / 2))) "°C" 1 = "23.5 °C" ∧
    formatMetric (JSVal.prim (some 5)) "" 1 = "5.0" :=
  ⟨rfl, rfl, rfl, rfl, rfl, by decide, by decide⟩

/-- The falsiness of the metric-field guard: the `!== undefined` check in the
normalizer lets a non-coercible (NaN) present value through as `some none`. -/
lemma coerceGuard (v : JSVal) :
    ((if v ≠ JSVal.undef then some (toNumber v) else none) = none ↔ v = JSVal.undef) ∧
    ((if v ≠ JSVal.undef then some (toNumber v) else none) = some none ↔
      v ≠ JSVal.undef ∧ toNumber v = none) := by
  by_cases h : v = JSVal.undef <;> simp [h]

/-- C1 counterexample: the claim "no output Reading carries NaN in
temperature, humidity, or uv" is false — a record whose `humid` is present
but non-coercible (e.g. the string "abc") and whose timestamp is valid
survives with `humidity = NaN` (`some none`). -/
theorem C1_counterexample :
    ¬ (∀ (value : List (String × RawRecord)) (r : Reading), r ∈ parsed value →
        r.humidity ≠ some none ∧ r.temperature ≠ some none ∧ r.uv ≠ some none) := by
  intro h
  exact (h [("abc-humid",
      (⟨.prim none, .undef, .undef, .undef, .undef,
        .prim (some 2000000000000), .undef⟩ : RawRecord))]
      ⟨"abc-humid", some none, none, none, some 2000000000000⟩ (by decide)).1 rfl

/-- C1 amended: a metric field is absent (null) exactly when its resolved
value is undefined; when the resolved value is present but fails numeric
coercion the field holds NaN (`some none`), not null — NaN is only masked
later, at render time, by `formatMetric`. -/
theorem C1_nanFields (id : String) (item : RawRecord) :
    ((normalizeEntry id item).humidity = none ↔
      nullishCoalesce item.humid item.humidity = JSVal.undef) ∧
    ((normalizeEntry id item).humidity = some none ↔
      nullishCoalesce item.humid item.humidity ≠ JSVal.undef ∧
        toNumber (nullishCoalesce item.humid item.humidity) = none) ∧
    ((normalizeEntry id item).temperature = none ↔
      nullishCoalesce item.temp item.temperature = JSVal.undef) ∧
    ((normalizeEntry id item).temperature = some none ↔
      nullishCoalesce item.temp item.temperature ≠ JSVal.undef ∧
        toNumber (nullishCoalesce item.temp item.temperature) = none) ∧
    ((normalizeEntry id item).uv = none ↔ item.uv = JSVal.undef) ∧
    ((normalizeEntry id item).uv = some none ↔
      item.uv ≠ JSVal.undef ∧ toNumber item.uv = none) := by
  exact ⟨(coerceGuard (nullishCoalesce item.humid item.humidity)).1,
    (coerceGuard (nullishCoalesce item.humid item.humidity)).2,
    (coerceGuard (nullishCoalesce item.temp item.temperature)).1,
    (coerceGuard (nullishCoalesce item.temp item.temperature)).2,
    (coerceGuard item.uv).1, (coerceGuard item.uv).2⟩

/-- C1 witness: the amended characterization at a record whose `humid` is a
present non-coercible value — the stored field is NaN. -/
theorem C1_witness :
    (normalizeEntry "abc"
        ⟨.prim none, .undef, .undef, .undef, .undef, .undef, .undef⟩).humidity
      = some none :=
  ((C1_nanFields "abc"
      ⟨.prim none, .undef, .undef, .undef, .undef, .undef, .undef⟩).2.1).mpr
    ⟨by decide, rfl⟩

/-- C6: a custom range with both endpoints filters to the closed interval;
a missing endpoint (or a null custom range) falls back to the full
sequence. -/
theorem C6_customRange (readings : List Reading) (s e now : ℚ) :
    filteredReadings readings "custom" (some (some s, some e)) now
      = readings.filter (fun r => decide (tsKey r ≥ s) && decide (tsKey r ≤ e)) ∧
    filteredReadings readings "custom" (some (some s, none)) now = readings ∧
    filteredReadings readings "custom" (some (none, some e)) now = readings ∧
    filteredReadings readings "custom" (some (none, none)) now = readings ∧
    filteredReadings readings "custom" none now = readings := by
  by_cases h0 : readings.length = 0
  · have hnil : readings = [] := List.length_eq_zero.mp h0
    subst hnil
    simp [filteredReadings]
  · refine ⟨?_, ?_, ?_, ?_, ?_⟩ <;> simp [filteredReadings, h0]

/-- C7: a relative preset (or any unrecognized key, which falls back to the
24h preset) filters to the window `now − amount·unit ≤ t ≤ now`; with
readings at 0, 1000, 2000 ms and preset 1h, a "now" of 3000000 ms keeps all
three and a "now" of 5000000 ms keeps none. -/
theorem C7_relativePresets (readings : List Reading) (key : String)
    (cr : Option (Option ℚ × Option ℚ)) (now : ℚ)
    (h1 : key ≠ "all") (h2 : key ≠ "custom") :
    filteredReadings readings key cr now
      = readings.filter (fun r =>
          decide (tsKey r ≥ now - ((presetsLookup key).getD (24, 3600000)).1 *
            ((presetsLookup key).getD (24, 3600000)).2) && decide (tsKey r ≤ now)) ∧
    (presetsLookup key = none →
      filteredReadings readings key cr now = filteredReadings readings "24h" cr now) ∧
    filteredReadings threeReadings "1h" none 3000000 = threeReadings ∧
    filteredReadings threeReadings "1h" none 5000000 = [] := by
  refine ⟨?_, ?_, by decide, by decide⟩
  · by_cases h0 : readings.length = 0
    · have hnil : readings = [] := List.length_eq_zero.mp h0
      subst hnil
      simp [filteredReadings]
    · simp [filteredReadings, h0, h1, h2]
  · intro hlk
    by_cases h0 : readings.length = 0
    · have hnil : readings = [] := List.length_eq_zero.mp h0
      subst hnil
      simp [filteredReadings]
    · have h24 : presetsLookup "24h" = some (24, 3600000) := rfl
      simp [filteredReadings, h0, h1, h2, hlk, h24]

/-- C7 witness: the preset law applied at the key 1h on the example
readings. -/
theorem C7_witness :
    filteredReadings threeReadings "1h" none 3000000
      = threeReadings.filter (fun r =>
          decide (tsKey r ≥ 3000000 - ((presetsLookup "1h").getD (24, 3600000)).1 *
            ((presetsLookup "1h").getD (24, 3600000)).2) && decide (tsKey r ≤ 3000000)) :=
  (C7_relativePresets threeReadings "1h" none 3000000 (by decide) (by decide)).1

/-- Filtering twice with the same predicate is the same as filtering once. -/
lemma filter_self_idem (p : Reading → Bool) (l : List Reading) :
    List.filter p (List.filter p l) = List.filter p l := by
  rw [List.filter_filter]
  simp only [Bool.and_self]

/-- C8: the range filter is idempotent for a fixed window (same key, same
custom interval, same fixed "now"). -/
theorem C8_idempotent (readings : List Reading) (key : String)
    (cr : Option (Option ℚ × Option ℚ)) (now : ℚ) :
    filteredReadings (filteredReadings readings key cr now) key cr now
      = filteredReadings readings key cr now := by
  by_cases h0 : readings.length = 0
  · have hnil : readings = [] := List.length_eq_zero.mp h0
    subst hnil
    simp [filteredReadings]
  · by_cases hall : key = "all"
    · have hinner : filteredReadings readings key cr now = readings := by
        simp [filteredReadings, h0, hall]
      rw [hinner]
      exact hinner
    · by_cases hcustom : key = "custom"
      · subst hcustom
        rcases cr with _ | ⟨os, oe⟩
        · have hinner : filteredReadings readings "custom" none now = readings := by
            simp [filteredReadings, h0]
          rw [hinner]; exact hinner
        · rcases os with _ | s
          · have hinner : filteredReadings readings "custom" (some (none, oe)) now
                = readings := by
              simp [filteredReadings, h0]
            rw [hinner]; exact hinner
          · rcases oe with _ | e
            · have hinner : filteredReadings readings "custom" (some (some s, none)) now
                  = readings := by
                simp [filteredReadings, h0]
              rw [hinner]; exact hinner
            · have hinner : filteredReadings readings "custom" (some (some s, some e)) now
                  = readings.filter fun r => decide (tsKey r ≥ s) && decide (tsKey r ≤ e) := by
                simp [filteredReadings, h0]
              rw [hinner]
              by_cases hf0 : (readings.filter fun r =>
                  decide (tsKey r ≥ s) && decide (tsKey r ≤ e)).length = 0
              · rw [List.length_eq_zero.mp hf0]
                simp [filteredReadings]
              · have houter : filteredReadings
                    (readings.filter fun r => decide (tsKey r ≥ s) && decide (tsKey r ≤ e))
                    "custom" (some (some s, some e)) now
                    = ((readings.filter fun r =>
                        decide (tsKey r ≥ s) && decide (tsKey r ≤ e)).filter
                        fun r => decide (tsKey r ≥ s) && decide (tsKey r ≤ e)) := by
                  simp [filteredReadings, hf0]
                rw [houter, filter_self_idem]
      · have hinner : filteredReadings readings key cr now
            = readings.filter fun r =>
                decide (tsKey r ≥ now - ((presetsLookup key).getD (24, 3600000)).1 *
                  ((presetsLookup key).getD (24, 3600000)).2) && decide (tsKey r ≤ now) := by
          simp [filteredReadings, h0, hall, hcustom]
        rw [hinner]
        by_cases hf0 : (readings.filter fun r =>
            decide (tsKey r ≥ now - ((presetsLookup key).getD (24, 3600000)).1 *
              ((presetsLookup key).getD (24, 3600000)).2) && decide (tsKey r ≤ now)).length = 0
        · rw [List.length_eq_zero.mp hf0]
          simp [filteredReadings]
        · have houter : filteredReadings
              (readings.filter fun r =>
                decide (tsKey r ≥ now - ((presetsLookup key).getD (24, 3600000)).1 *
                  ((presetsLookup key).getD (24, 3600000)).2) && decide (tsKey r ≤ now))
              key cr now
              = ((readings.filter fun r =>
                  decide (tsKey r ≥ now - ((presetsLookup key).getD (24, 3600000)).1 *
                    ((presetsLookup key).getD (24, 3600000)).2) && decide (tsKey r ≤ now)).filter
                  fun r =>
                    decide (tsKey r ≥ now - ((presetsLookup key).getD (24, 3600000)).1 *
                      ((presetsLookup key).getD (24, 3600000)).2) && decide (tsKey r ≤ now)) := by
            simp [filteredReadings, hf0, hall, hcustom]
          rw [houter, filter_self_idem]

end

end MISP
